import Mathlib

/-!
Verification of the HubSpot lead-intake Azure Function (`function_app.py`).

The development shallowly embeds the program: JSON values are an inductive
type, Python dictionary/attribute operations that may raise become `Except`
computations, the outbound CRM calls are resolved against an explicit `World`
of responses, and the handler returns the HTTP response it would produce
together with the list of outbound calls it attempted and the sleeps it
performed.  Time-units (the poller delay) are modelled as exact rationals;
the program's `delay *= 1.5` is `delay * (3 / 2)`.
-/

/-- A JSON value as produced by `json.loads`.  Numbers are modelled as
integers (no claim involves non-integral numbers). -/
inductive Json where
  | null
  | bool (b : Bool)
  | num (n : Int)
  | str (s : String)
  | arr (xs : List Json)
  | obj (fields : List (String × Json))

/-- First-match lookup in a JSON object's field list (Python `dict` access;
`json.loads` produces unique keys). -/
def lookupField : List (String × Json) → String → Option Json
  | [], _ => none
  | (k, v) :: rest, key => if k = key then some v else lookupField rest key

/-- Python truthiness of a JSON value (`bool(x)`). -/
def Json.truthy : Json → Bool
  | .null => false
  | .bool b => b
  | .num n => !(n == 0)
  | .str s => !(s == "")
  | .arr xs => !xs.isEmpty
  | .obj fs => !fs.isEmpty

/-- Python truthiness of `dict.get(k)`'s result (`None` is falsy). -/
def pyOptTruthy : Option Json → Bool
  | none => false
  | some j => j.truthy

/-- Python `x is not None` for a JSON-or-None value, with `Json.null`
standing for Python `None` (the only value identical to `None`). -/
def jsonIsNotNone : Json → Bool
  | .null => false
  | _ => true

/-- Python `x.get(k)`: returns the value or `None` on a dict, raises
`AttributeError` on any non-dict value. -/
def Json.getm : Json → String → Except String (Option Json)
  | .obj fs, k => .ok (lookupField fs k)
  | _, _ => .error "AttributeError: object has no attribute get"

/-- Python `x.get(k, d)` with a default, raising `AttributeError` on a
non-dict value. -/
def Json.getDef : Json → String → Json → Except String Json
  | .obj fs, k, d => .ok ((lookupField fs k).getD d)
  | _, _, _ => .error "AttributeError: object has no attribute get"

/-- Python `x[k]` subscripting with a string key: dict lookup
(`KeyError` when missing), `TypeError` on values that do not support
string subscripts. -/
def Json.subscript : Json → String → Except String Json
  | .obj fs, k =>
      match lookupField fs k with
      | some v => .ok v
      | none => .error "KeyError"
  | _, _ => .error "TypeError: not subscriptable by string"

/-- Python `x[i]` subscripting with a non-negative integer: list index
(`IndexError` out of range), 1-character string for strings, `KeyError`
on dicts (whose JSON keys are strings), `TypeError` otherwise. -/
def Json.subscriptIdx : Json → Nat → Except String Json
  | .arr xs, i =>
      match xs.get? i with
      | some v => .ok v
      | none => .error "IndexError"
  | .str s, i =>
      match s.toList.get? i with
      | some c => .ok (.str (String.mk [c]))
      | none => .error "IndexError: string index out of range"
  | .obj _, _ => .error "KeyError"
  | _, _ => .error "TypeError: not subscriptable"

/-- Python `"UserDetails" in data` for an arbitrary parsed JSON value:
key test on dicts, element test on lists, substring test on strings
(`(s.splitOn k).length > 1` iff the non-empty `k` occurs in `s`),
`TypeError` otherwise. -/
def Json.containsKey : Json → String → Except String Bool
  | .obj fs, k => .ok (fs.any (fun p => p.1 = k))
  | .arr xs, k => .ok (xs.any (fun j => match j with | .str t => t = k | _ => false))
  | .str s, k => .ok (decide ((s.splitOn k).length > 1))
  | _, _ => .error "TypeError: argument is not iterable"

/-- Python `==` between a JSON value and a string literal: true exactly
for the equal string. -/
def jsonEqStr (j : Json) (s : String) : Bool :=
  match j with
  | .str t => t == s
  | _ => false

/-- Python `value in list_of_strings`: equality of the value against each
element. -/
def jsonInStrList (j : Json) (l : List String) : Bool :=
  l.any (jsonEqStr j)

section Poller

/-!
## Association Poller — `wait_for_company_association` (lines 12–42)

Each attempt performs one `GET .../associations/companies`; the outcome of
that call (an HTTP response or a raised transport error) comes from an
oracle indexed by the attempt number.  The poller's observable behaviour is
its return value plus the trace of calls and sleeps.
-/

/-- One CRM HTTP response as seen by the program: status code, raw text,
and the result of `.json()` (`none` when `.json()` raises). -/
structure CrmResp where
  status : Nat
  text : String
  jsonBody : Option Json

/-- Outcome of one attempted association `GET`: a response, or a raised
transport error. -/
inductive PollResp where
  | http (resp : CrmResp)
  | transportError (msg : String)

/-- Observable poller events: one association call, or a sleep of the given
duration. -/
inductive PollEv where
  | assoc
  | sleep (d : ℚ)
deriving DecidableEq, Repr

/-- How one iteration of the poller's `for` body ends: immediate return of a
company id, normal fall-through (line 31 backoff, which multiplies the
delay), or a caught exception (line 36 `except`, which sleeps without
multiplying the delay). -/
inductive AttemptOutcome where
  | success (id : Json)
  | noCompany
  | exn

/-- The body of one poller attempt (lines 20–30): on status 200 parse the
body, truth-test `.get("results")`, and extract
`["results"][0]["toObjectId"]`; any raised step becomes `exn`. -/
def attemptOutcome (r : PollResp) : AttemptOutcome :=
  match r with
  | .transportError _ => .exn
  | .http resp =>
      if resp.status = 200 then
        match resp.jsonBody with
        | none => .exn
        | some dataJ =>
            match Json.getm dataJ "results" with
            | .error _ => .exn
            | .ok none => .noCompany
            | .ok (some results) =>
                if results.truthy then
                  match Json.subscriptIdx results 0 with
                  | .error _ => .exn
                  | .ok first =>
                      match Json.subscript first "toObjectId" with
                      | .error _ => .exn
                      | .ok id => .success id
                else .noCompany
      else .noCompany

/-- The poller's `for attempt in range(max_retries)` loop, generic in the
per-attempt outcome function.  `remaining` counts the attempts left
(including the current one), so `remaining = succ r` with `r = 0` is the
last attempt, on which no sleep happens (line 31's
`attempt < max_retries - 1` guard).  `noCompany` sleeps then multiplies the
delay by 1.5 (lines 32–34); `exn` sleeps without multiplying (line 39).
The returned value is the Python value the source returns: the extracted
`toObjectId` on success (line 29; a JSON `null` id returns Python `None`),
and `None` — modelled as `Json.null` — after exhaustion (line 42). -/
def pollLoop (outcome : PollResp → AttemptOutcome) (oracle : Nat → PollResp) :
    Nat → Nat → ℚ → Json × List PollEv
  | _, 0, _ => (.null, [])
  | attempt, r + 1, delay =>
      match outcome (oracle attempt) with
      | .success id => (id, [.assoc])
      | .noCompany =>
          if r = 0 then (.null, [.assoc])
          else
            let p := pollLoop outcome oracle (attempt + 1) r (delay * (3 / 2))
            (p.1, .assoc :: .sleep delay :: p.2)
      | .exn =>
          if r = 0 then (.null, [.assoc])
          else
            let p := pollLoop outcome oracle (attempt + 1) r delay
            (p.1, .assoc :: .sleep delay :: p.2)

/-- `wait_for_company_association(contact_id, headers, max_retries, delay)`
(lines 12–42): run the loop from attempt 0. -/
def wait_for_company_association (oracle : Nat → PollResp) (max_retries : Nat)
    (delay : ℚ) : Json × List PollEv :=
  pollLoop attemptOutcome oracle 0 max_retries delay

/-- Modelled from the claim's reference algorithm (spec §4.2): the id of the
first result of an HTTP 200 response whose body carries a non-empty
`results` list, `none` on every other outcome. -/
def specExtractId (r : PollResp) : Option Json :=
  match r with
  | .transportError _ => none
  | .http resp =>
      if resp.status = 200 then
        match resp.jsonBody with
        | some (.obj fs) =>
            match lookupField fs "results" with
            | some (.arr (first :: _)) =>
                match first with
                | .obj ff => lookupField ff "toObjectId"
                | _ => none
            | _ => none
        | _ => none
      else none

/-- Modelled from the claim's reference algorithm: every non-success
outcome — transport errors included — waits and then multiplies the delay
by 1.5. -/
def specOutcomeClaim (r : PollResp) : AttemptOutcome :=
  match specExtractId r with
  | some id => .success id
  | none => .noCompany

/-- The claim's reference poller: `pollLoop` with the uniform backoff of
`specOutcomeClaim`. -/
def spec_poll (oracle : Nat → PollResp) (maxAttempts : Nat) (initialDelay : ℚ) :
    Json × List PollEv :=
  pollLoop specOutcomeClaim oracle 0 maxAttempts initialDelay

/-- The amended reference outcome: transport errors are `exn` (wait without
multiplying the delay); all other non-success outcomes back off with the
1.5× multiplication. -/
def specOutcomeAmended (r : PollResp) : AttemptOutcome :=
  match specExtractId r with
  | some id => .success id
  | none =>
      match r with
      | .transportError _ => .exn
      | .http _ => .noCompany

/-- The amended reference poller. -/
def spec_poll_amended (oracle : Nat → PollResp) (maxAttempts : Nat)
    (initialDelay : ℚ) : Json × List PollEv :=
  pollLoop specOutcomeAmended oracle 0 maxAttempts initialDelay

/-- Well-formedness of one association response: whenever the status is 200
the body must parse to a JSON object, and a truthy `results` value must
yield a first-element `toObjectId`.  (Transport errors and non-200
responses are unconstrained.) -/
def goodResp : PollResp → Bool
  | .transportError _ => true
  | .http resp =>
      if resp.status = 200 then
        match resp.jsonBody with
        | some (.obj fs) =>
            match lookupField fs "results" with
            | none => true
            | some v =>
                if v.truthy then
                  match v with
                  | .arr (first :: _) =>
                      match first with
                      | .obj ff => (lookupField ff "toObjectId").isSome
                      | _ => false
                  | _ => false
                else true
        | _ => false
      else true

end Poller

section Classifier

/-!
## Territory Classifier (lines 55–77, duplicated verbatim at lines 210–229)

The two country lists appear twice in the source, with identical elements in
identical order; they are defined once here and used at both sites.
-/

/-- `filtered_country_codes` (lines 55–65 and 210–220). -/
def filtered_country_codes : List String :=
  ["AG", "AI", "AW", "BS", "BB", "BZ", "BM", "CA", "CR", "CU", "CW", "DM", "DO",
   "SV", "GD", "GP", "GT", "HT", "HN", "JM", "MQ", "MX", "MS", "NI", "PA", "PR",
   "KN", "LC", "MF", "PM", "VC", "SX", "TT", "US", "VG", "VI",
   "AS", "AU", "CK", "FJ", "PF", "GU", "KI", "MH", "FM", "NR", "NC", "NZ", "NU",
   "NF", "MP", "PW", "PG", "PN", "WS", "SB", "TK", "TO", "TV", "VU", "WF",
   "AR", "BO", "BR", "CL", "CO", "EC", "FK", "GF", "GY", "PY", "PE", "SR", "UY", "VE"]

/-- `a_rated_countries` (lines 67–71 and 222–226). -/
def a_rated_countries : List String :=
  ["US", "CA", "AU", "NZ", "GB", "DE", "FR", "NL",
   "SE", "CH", "NO", "FI", "DK", "BE", "AT", "JP",
   "KR", "SG"]

/-- `sales_office` (line 73 / line 228): `"BPA US" if user_country in
filtered_country_codes else "BPA CH"`. -/
def sales_office (user_country : Json) : String :=
  if jsonInStrList user_country filtered_country_codes then "BPA US" else "BPA CH"

/-- `market_type` (line 74 / line 229): `"A" if user_country in
a_rated_countries else "B"`. -/
def market_type (user_country : Json) : String :=
  if jsonInStrList user_country a_rated_countries then "A" else "B"

/-- `sales_account_manager` (lines 75–77). -/
def sales_account_manager (user_country : Json) : String :=
  if sales_office user_country = "BPA US" then "Sebastien Rocco" else "Damien Emery"

/-- The spec's Glossary "Filtered country set", reproduced from the spec's
words for the refinement claim C3. -/
def glossaryFilteredSet : List String :=
  ["AG", "AI", "AW", "BS", "BB", "BZ", "BM", "CA", "CR", "CU", "CW", "DM", "DO",
   "SV", "GD", "GP", "GT", "HT", "HN", "JM", "MQ", "MX", "MS", "NI", "PA", "PR",
   "KN", "LC", "MF", "PM", "VC", "SX", "TT", "US", "VG", "VI",
   "AS", "AU", "CK", "FJ", "PF", "GU", "KI", "MH", "FM", "NR", "NC", "NZ", "NU",
   "NF", "MP", "PW", "PG", "PN", "WS", "SB", "TK", "TO", "TV", "VU", "WF",
   "AR", "BO", "BR", "CL", "CO", "EC", "FK", "GF", "GY", "PY", "PE", "SR", "UY", "VE"]

/-- The spec's Glossary "A-rated tier set", reproduced from the spec's words
for the refinement claim C3. -/
def glossaryARatedSet : List String :=
  ["US", "CA", "AU", "NZ", "GB", "DE", "FR", "NL",
   "SE", "CH", "NO", "FI", "DK", "BE", "AT", "JP",
   "KR", "SG"]

end Classifier

section CompanyUpdate

/-!
## `update_company_properties` (lines 44–121)

The country-name lookup (`pycountry.countries.get(alpha_2=...)`) is the
spec's external collaborator "ISO alpha-2 code → country name lookup table";
it is modelled as a pure table `String → Option String` carried by the
`World`, with non-string lookups finding no match.
-/

/-- `pycountry.countries.get(alpha_2=c).name` as a pure lookup. -/
def pycountry_get (countryName : String → Option String) : Json → Option String
  | .str s => countryName s
  | _ => none

/-- An outbound CRM call attempted by the program, with the payload it was
sent. -/
inductive CrmCall where
  | createContact (payload : Json)
  | updateContact (email : Json) (payload : Json)
  | getAssociations (contactId : Json)
  | updateCompany (companyId : Json) (payload : Json)

/-- The fixed responses of the external world for one request: the
configured token, the clock, the country table, and the outcome of each
outbound call the program may attempt. -/
structure World where
  token : Option String
  now : String
  countryName : String → Option String
  createResp : Except String CrmResp
  updateResp : Except String CrmResp
  assocResp : Nat → PollResp
  companyResp : Except String CrmResp

/-- `update_company_properties(company_id, user_country, headers)`
(lines 44–121): build the classification payload, `PATCH` the company, and
return `True` exactly on status 200; transport errors are caught and yield
`False`.  Also returns the attempted call for the trace. -/
def update_company_properties (company_id user_country : Json) (w : World) :
    Bool × CrmCall :=
  let country := if user_country.truthy then pycountry_get w.countryName user_country
                 else none
  let props : List (String × Json) :=
    [("bpa_sales_office", .str (sales_office user_country)),
     ("market_type", .str (market_type user_country)),
     ("sales_account_manager", .str (sales_account_manager user_country)),
     ("country_region_code", user_country)]
  let props := match country with
    | some n => props ++ [("country", .str n)]
    | none => props
  let payload : Json := .obj [("properties", .obj props)]
  let call := CrmCall.updateCompany company_id payload
  match w.companyResp with
  | .error _ => (false, call)
  | .ok resp => (resp.status == 200, call)

end CompanyUpdate

section Builder

/-!
## Lead Payload Builder (lines 192–255)
-/

/-- `solution_map` (lines 193–200). -/
def solution_map : List (String × String) :=
  [("BPACRM365", "BPA CRM 365"),
   ("BPAMedical365", "BPA Medical 365"),
   ("BPAQuality365", "BPA Quality 365"),
   ("CRMandProjectManagementbyBPA", "CRM & Project Management by BPA"),
   ("QualityandRiskManagementbyBPA", "Quality & Risk Management by BPA"),
   ("Solutionbuilder", "Solution builder")]

/-- First-match lookup in a string-to-string table. -/
def lookupStr : List (String × String) → String → Option String
  | [], _ => none
  | (k, v) :: rest, key => if k = key then some v else lookupStr rest key

/-- `solution_map.get(raw_solution, raw_solution)` (line 204): dict keys
must be hashable, so a list or dict key raises `TypeError`; a string key is
looked up in the table (falling back to itself); any other hashable value
is not a key of the table and falls back to itself. -/
def solutionValue : Json → Except String Json
  | .arr _ => .error "TypeError: unhashable type: list"
  | .obj _ => .error "TypeError: unhashable type: dict"
  | .str s =>
      match lookupStr solution_map s with
      | some display => .ok (.str display)
      | none => .ok (.str s)
  | j => .ok j

/-- `hubspot_data` construction (lines 202–255): the solution lookup, the
country resolution guarded by truthiness (lines 206–208), the territory
fields (lines 228–229), the properties dict literal (lines 231–250), and
the conditional `country`/`country_name` insertions (lines 252–255). -/
def build_hubspot_data (data user : Json) (countryName : String → Option String) :
    Except String Json := do
  let raw_solution ← Json.getDef data "OfferTitle" (.str "")
  let solution_value ← solutionValue raw_solution
  let countryJ ← Json.getDef user "Country" (.str "")
  let country := if countryJ.truthy then pycountry_get countryName countryJ else none
  let email ← Json.getDef user "Email" (.str "")
  let firstname ← Json.getDef user "FirstName" (.str "")
  let lastname ← Json.getDef user "LastName" (.str "")
  let phone ← Json.getDef user "Phone" (.str "")
  let company ← Json.getDef user "Company" (.str "")
  let jobtitle ← Json.getDef user "Title" (.str "")
  let description ← Json.getDef data "Description" (.str "")
  let props : List (String × Json) :=
    [("email", email),
     ("firstname", firstname),
     ("lastname", lastname),
     ("phone", phone),
     ("company", company),
     ("jobtitle", jobtitle),
     ("country_code", countryJ),
     ("which_solution_are_you_interested_in_", solution_value),
     ("lifecyclestage", .str "marketingqualifiedlead"),
     ("hs_content_membership_notes", description),
     ("lead_source", .str "AzureMarketplace"),
     ("contact_origin", .str "Marketplace"),
     ("account_type", .str "Inbound Lead"),
     ("bpa_sales_office", .str (sales_office countryJ)),
     ("market_type", .str (market_type countryJ)),
     ("country_region_code", countryJ)]
  let props := match country with
    | some n => props ++ [("country", .str n), ("country_name", .str n)]
    | none => props
  return Json.obj [("properties", .obj props)]

end Builder

section Orchestrator

/-!
## Lead Intake Orchestrator — `HubspotAdd` (lines 123–362)

The handler is split into the stages of the source function; every raise
site of the Python code becomes a local `.error` match whose branch builds
the top-level `except` response of lines 355–362 with the calls attempted
so far.  Response bodies are the JSON values passed to `json.dumps`
(serialisation is abstracted); the `mimetype` argument carries no behaviour
and is dropped.
-/

/-- What `req.get_body().decode("utf-8")` / `json.loads(body)` produced:
a decode failure (uncaught, line 158), a JSON parse failure (caught at
line 161), or a parsed value. -/
inductive BodyOutcome where
  | decodeError (msg : String)
  | parseError
  | json (data : Json)

/-- The inbound HTTP request: its method and the outcome of reading its
body. -/
structure HttpRequest where
  method : String
  body : BodyOutcome

/-- The HTTP response the handler returns: status code, JSON body (`none`
for the empty OPTIONS body), and headers. -/
structure HttpResponse where
  status : Nat
  body : Option Json
  headers : List (String × String)

/-- The handler's observable behaviour: its response, the outbound CRM
calls it attempted in order, and the sleeps it performed. -/
structure HandlerResult where
  resp : HttpResponse
  calls : List CrmCall
  sleeps : List ℚ

/-- The CORS header set on every non-OPTIONS response. -/
def corsHeaders : List (String × String) := [("Access-Control-Allow-Origin", "*")]

/-- A JSON response with the CORS header (the `func.HttpResponse(...)`
constructions of the handler). -/
def jsonResp (status : Nat) (body : Json) : HttpResponse :=
  { status := status, body := some body, headers := corsHeaders }

/-- `{"message": m}`. -/
def msgBody (m : String) : Json := .obj [("message", .str m)]

/-- The top-level `except` response (lines 355–362), with the calls and
sleeps performed before the exception. -/
def internalErrorResult (e : String) (calls : List CrmCall) (sleeps : List ℚ) :
    HandlerResult :=
  { resp := jsonResp 500 (.obj [("message", .str "Internal server error"),
                                ("error", .str e)]),
    calls := calls, sleeps := sleeps }

/-- The required-field loop (lines 181–190): for each field in order, a
raising `user.get(field)` aborts, a falsy value returns that field. -/
def findMissingField (user : Json) : List String → Except String (Option String)
  | [] => .ok none
  | f :: rest =>
      match Json.getm user f with
      | .error e => .error e
      | .ok v => if pyOptTruthy v then findMissingField user rest else .ok (some f)

/-- `contact_id = r.json()["id"]` (line 322). -/
def extract_contact_id (r : CrmResp) : Except String Json :=
  match r.jsonBody with
  | none => .error "JSONDecodeError: response body is not valid JSON"
  | some j => Json.subscript j "id"

/-- Truthiness of the token string from the environment (`if not token`,
line 259). -/
def pyStrTruthy : Option String → Bool
  | none => false
  | some s => !(s == "")

/-- Steps after the contact exists (lines 322–353): extract the contact id,
poll for the company association (5 attempts delay 2 when newly created,
1 attempt delay 0 when updated), run the company update when the returned
company id is truthy (`if company_id:`, line 334), and build the 200
response whose `company_updated` field is `company_id is not None`
(line 348) — so a falsy non-`None` id (0 or the empty string) skips the
PATCH yet reports `true`, and a `None` id reports `false`. -/
def afterContact (contact_created : Bool) (r : CrmResp) (user : Json) (w : World)
    (calls : List CrmCall) : HandlerResult :=
  match extract_contact_id r with
  | .error e => internalErrorResult e calls []
  | .ok contact_id =>
      let poll :=
        if contact_created then wait_for_company_association w.assocResp 5 2
        else wait_for_company_association w.assocResp 1 0
      let company_id := poll.1
      let assocCalls := poll.2.filterMap fun ev =>
        match ev with
        | .assoc => some (CrmCall.getAssociations contact_id)
        | .sleep _ => none
      let sleeps := poll.2.filterMap fun ev =>
        match ev with
        | .sleep d => some d
        | .assoc => none
      let calls := calls ++ assocCalls
      if company_id.truthy then
        match Json.getDef user "Country" (.str "") with
        | .error e => internalErrorResult e calls sleeps
        | .ok user_country =>
            let upd := update_company_properties company_id user_country w
            { resp := jsonResp 200 (.obj
                [("message", .str "Lead processed successfully"),
                 ("timestamp", .str w.now),
                 ("company_updated", .bool (jsonIsNotNone company_id))]),
              calls := calls ++ [upd.2], sleeps := sleeps }
      else
        { resp := jsonResp 200 (.obj
            [("message", .str "Lead processed successfully"),
             ("timestamp", .str w.now),
             ("company_updated", .bool (jsonIsNotNone company_id))]),
          calls := calls, sleeps := sleeps }

/-- The 409 conflict path (lines 291–318): read `user["Email"]`, `PATCH`
the contact by email; a transport failure yields the dedicated 500 body,
a 400 propagates the raw text, any other status continues with
`contact_created = False`. -/
def conflictPath (user hubspot_data : Json) (w : World) (calls : List CrmCall) :
    HandlerResult :=
  match Json.subscript user "Email" with
  | .error e => internalErrorResult e calls []
  | .ok email =>
      let calls := calls ++ [CrmCall.updateContact email hubspot_data]
      match w.updateResp with
      | .error msg =>
          { resp := jsonResp 500 (.obj [("message", .str "PATCH update failed"),
                                        ("error", .str msg)]),
            calls := calls, sleeps := [] }
      | .ok r2 =>
          if r2.status = 400 then
            { resp := jsonResp 400 (msgBody r2.text), calls := calls, sleeps := [] }
          else afterContact false r2 user w calls

/-- Steps 5–11 after validation (lines 192–353): build `hubspot_data`
(a raise before the token check reaches the top-level handler), check the
token, `POST` the contact, and dispatch on the create status (400 / 409 /
created). -/
def afterValidation (data user : Json) (w : World) : HandlerResult :=
  match build_hubspot_data data user w.countryName with
  | .error e => internalErrorResult e [] []
  | .ok hubspot_data =>
      if pyStrTruthy w.token = false then
        { resp := jsonResp 500 (msgBody "Server misconfiguration: missing token"),
          calls := [], sleeps := [] }
      else
        let calls := [CrmCall.createContact hubspot_data]
        match w.createResp with
        | .error e => internalErrorResult e calls []
        | .ok r =>
            if r.status = 400 then
              { resp := jsonResp 400 (msgBody r.text), calls := calls, sleeps := [] }
            else if r.status = 409 then
              conflictPath user hubspot_data w calls
            else
              afterContact true r user w calls

/-- Steps 3–4 on a parsed body (lines 170–190): the `"UserDetails" in data`
test, the `data["UserDetails"]` access, and the required-field loop. -/
def withData (data : Json) (w : World) : HandlerResult :=
  match Json.containsKey data "UserDetails" with
  | .error e => internalErrorResult e [] []
  | .ok false =>
      { resp := jsonResp 400 (msgBody "UserDetails is required"),
        calls := [], sleeps := [] }
  | .ok true =>
      match Json.subscript data "UserDetails" with
      | .error e => internalErrorResult e [] []
      | .ok user =>
          match findMissingField user ["Email", "FirstName", "LastName"] with
          | .error e => internalErrorResult e [] []
          | .ok (some f) =>
              { resp := jsonResp 400 (msgBody ("Required field missing: " ++ f)),
                calls := [], sleeps := [] }
          | .ok none => afterValidation data user w

/-- The OPTIONS preflight response (lines 135–144). -/
def optionsResponse : HttpResponse :=
  { status := 200, body := none,
    headers := [("Access-Control-Allow-Origin", "*"),
                ("Access-Control-Allow-Methods", "POST, OPTIONS"),
                ("Access-Control-Allow-Headers", "Content-Type, Authorization, User-Agent")] }

/-- `HubspotAdd(req)` (lines 123–362). -/
def HubspotAdd (req : HttpRequest) (w : World) : HandlerResult :=
  if req.method = "OPTIONS" then
    { resp := optionsResponse, calls := [], sleeps := [] }
  else if req.method ≠ "POST" then
    { resp := jsonResp 405 (msgBody "Only POST method allowed"),
      calls := [], sleeps := [] }
  else
    match req.body with
    | .decodeError msg => internalErrorResult msg [] []
    | .parseError =>
        { resp := jsonResp 400 (msgBody "Invalid JSON format"),
          calls := [], sleeps := [] }
    | .json data => withData data w

/-- The `"message"` field of a response body, when it is a string. -/
def respMessage (r : HttpResponse) : Option String :=
  match r.body with
  | some (.obj fs) =>
      match lookupField fs "message" with
      | some (.str s) => some s
      | _ => none
  | _ => none

/-- An arbitrary field of a JSON response body. -/
def respField (r : HttpResponse) (k : String) : Option Json :=
  match r.body with
  | some (.obj fs) => lookupField fs k
  | _ => none

end Orchestrator

section Lemmas

/-- Membership of a string value in a string list is list membership. -/
lemma jsonInStrList_str (c : String) (l : List String) :
    jsonInStrList (.str c) l = true ↔ c ∈ l := by
  induction l with
  | nil => simp [jsonInStrList]
  | cons x xs ih =>
      simp only [jsonInStrList, List.any_cons, jsonEqStr, Bool.or_eq_true,
        beq_iff_eq, List.mem_cons] at *
      constructor
      · rintro (h | h)
        · exact Or.inl h
        · exact Or.inr (ih.mp h)
      · rintro (h | h)
        · exact Or.inl h
        · exact Or.inr (ih.mpr h)

end Lemmas

/-- Claim C3: the Territory Classifier equals its reference definition —
`sales_office` is `"BPA US"` exactly on members of the Glossary's Filtered
country set and `"BPA CH"` otherwise, `market_type` is `"A"` exactly on
members of the Glossary's A-rated tier set and `"B"` otherwise, and
`sales_account_manager` is `"Sebastien Rocco"` when the sales office is
`"BPA US"` and `"Damien Emery"` otherwise. -/
theorem C3_classifier_matches_glossary (c : String) :
    (sales_office (.str c) = "BPA US" ↔ c ∈ glossaryFilteredSet) ∧
    (sales_office (.str c) = "BPA CH" ↔ c ∉ glossaryFilteredSet) ∧
    (market_type (.str c) = "A" ↔ c ∈ glossaryARatedSet) ∧
    (market_type (.str c) = "B" ↔ c ∉ glossaryARatedSet) ∧
    (sales_account_manager (.str c) =
      if sales_office (.str c) = "BPA US" then "Sebastien Rocco" else "Damien Emery") := by
  have hfil : glossaryFilteredSet = filtered_country_codes := rfl
  have hrat : glossaryARatedSet = a_rated_countries := rfl
  rw [hfil, hrat]
  unfold sales_office market_type sales_account_manager
  by_cases hf : jsonInStrList (.str c) filtered_country_codes = true <;>
    by_cases ha : jsonInStrList (.str c) a_rated_countries = true <;>
      simp [hf, ha, ← jsonInStrList_str, sales_office]

section C2Proofs

/-- An oracle whose every association call raises a transport error. -/
def errOracle : Nat → PollResp := fun _ => .transportError "connection reset"

/-- Claim C2, counterexample: with three attempts of initial delay 2 against
always-failing transport, the program sleeps 2 then 2 (the `except` branch
never multiplies the delay), while the claimed reference algorithm sleeps
2 then 3. -/
theorem C2_counterexample :
    wait_for_company_association errOracle 3 2 ≠ spec_poll errOracle 3 2 := by
  intro h
  have h2 : ([.assoc, .sleep 2, .assoc, .sleep 2, .assoc] : List PollEv) =
      [.assoc, .sleep 2, .assoc, .sleep (2 * (3 / 2)), .assoc] :=
    congrArg Prod.snd h
  simp only [List.cons.injEq, PollEv.sleep.injEq, and_true, true_and] at h2
  norm_num at h2

/-- Under well-formedness, one attempt of the program's loop body classifies
exactly as the amended reference outcome. -/
lemma attemptOutcome_eq_amended (r : PollResp) (h : goodResp r = true) :
    attemptOutcome r = specOutcomeAmended r := by
  cases r with
  | transportError m => rfl
  | http resp =>
      by_cases hs : resp.status = 200
      · cases hb : resp.jsonBody with
        | none => simp [goodResp, hs, hb] at h
        | some j =>
            cases j with
            | obj fs =>
                cases hr : lookupField fs "results" with
                | none =>
                    simp [attemptOutcome, specOutcomeAmended, specExtractId,
                      Json.getm, hs, hb, hr, pyOptTruthy]
                | some v =>
                    by_cases hv : v.truthy = true
                    · cases v with
                      | arr xs =>
                          cases xs with
                          | nil => simp [Json.truthy] at hv
                          | cons first rest =>
                              cases first with
                              | obj ff =>
                                  cases hid : lookupField ff "toObjectId" with
                                  | none =>
                                      simp [goodResp, hs, hb, hr, hv, hid] at h
                                  | some cid =>
                                      simp [attemptOutcome, specOutcomeAmended,
                                        specExtractId, Json.getm, Json.subscriptIdx,
                                        Json.subscript, hs, hb, hr, hv, hid]
                              | null => simp [goodResp, hs, hb, hr, hv] at h
                              | bool b => simp [goodResp, hs, hb, hr, hv] at h
                              | num n => simp [goodResp, hs, hb, hr, hv] at h
                              | str s => simp [goodResp, hs, hb, hr, hv] at h
                              | arr ys => simp [goodResp, hs, hb, hr, hv] at h
                      | null => simp [Json.truthy] at hv
                      | bool b =>
                          simp [goodResp, hs, hb, hr, hv] at h
                      | num n => simp [goodResp, hs, hb, hr, hv] at h
                      | str s => simp [goodResp, hs, hb, hr, hv] at h
                      | obj gs => simp [goodResp, hs, hb, hr, hv] at h
                    · have hextract :
                          specExtractId (.http resp) = none := by
                        cases v with
                        | arr xs =>
                            cases xs with
                            | nil => simp [specExtractId, hs, hb, hr]
                            | cons a b => simp [Json.truthy] at hv
                        | null => simp [specExtractId, hs, hb, hr]
                        | bool b => simp [specExtractId, hs, hb, hr]
                        | num n => simp [specExtractId, hs, hb, hr]
                        | str s => simp [specExtractId, hs, hb, hr]
                        | obj gs => simp [specExtractId, hs, hb, hr]
                      simp [attemptOutcome, specOutcomeAmended, Json.getm,
                        hs, hb, hr, hv, hextract]
            | null => simp [goodResp, hs, hb] at h
            | bool b => simp [goodResp, hs, hb] at h
            | num n => simp [goodResp, hs, hb] at h
            | str s => simp [goodResp, hs, hb] at h
            | arr xs => simp [goodResp, hs, hb] at h
      · simp [attemptOutcome, specOutcomeAmended, specExtractId, hs]

/-- Two outcome functions that agree on every oracle response drive the
loop identically. -/
lemma pollLoop_congr_outcome (o1 o2 : PollResp → AttemptOutcome)
    (oracle : Nat → PollResp) (h : ∀ i, o1 (oracle i) = o2 (oracle i)) :
    ∀ rem attempt delay,
      pollLoop o1 oracle attempt rem delay = pollLoop o2 oracle attempt rem delay := by
  intro rem
  induction rem with
  | zero => intro a d; rfl
  | succ r ih =>
      intro a d
      simp only [pollLoop, h a]
      cases o2 (oracle a) <;> simp [ih]

/-- Claim C2 (amended): on well-formed response streams the poller equals
the reference algorithm amended so that a caught transport error waits the
current delay without applying the 1.5× multiplication (the backoff
multiplication happens only after a non-200 or empty-result HTTP
outcome). -/
theorem C2_amended_poller_refines (oracle : Nat → PollResp)
    (hgood : ∀ i, goodResp (oracle i) = true) (maxAttempts : Nat)
    (initialDelay : ℚ) :
    wait_for_company_association oracle maxAttempts initialDelay =
      spec_poll_amended oracle maxAttempts initialDelay :=
  pollLoop_congr_outcome attemptOutcome specOutcomeAmended oracle
    (fun i => attemptOutcome_eq_amended (oracle i) (hgood i)) maxAttempts 0 initialDelay

/-- A well-formed oracle: an empty result list on the first attempt, then a
one-element result list with id 99. -/
def witOracle : Nat → PollResp := fun i =>
  match i with
  | 0 => .http ⟨200, "", some (.obj [("results", .arr [])])⟩
  | _ + 1 => .http ⟨200, "", some (.obj [("results",
      .arr [.obj [("toObjectId", .num 99)]])])⟩

/-- Witness for the amended C2 theorem at a concrete well-formed oracle. -/
theorem C2_amended_witness :
    (∀ i, goodResp (witOracle i) = true) ∧
    wait_for_company_association witOracle 5 2 = spec_poll_amended witOracle 5 2 :=
  ⟨fun i => by cases i <;> rfl,
   C2_amended_poller_refines witOracle (fun i => by cases i <;> rfl) 5 2⟩

end C2Proofs

section HandlerLemmas

/-- A handler whose required-field loop ran on a non-empty field list
without raising was given a JSON object. -/
lemma findMissingField_ok_obj (user : Json) (f : String) (rest : List String)
    (res : Option String) (h : findMissingField user (f :: rest) = .ok res) :
    ∃ ufs, user = .obj ufs := by
  cases user <;> simp [findMissingField, Json.getm] at h ⊢

/-- A fully passed validation means every required field is present and
truthy; in particular `Email` is. -/
lemma email_present_of_validated (ufs : List (String × Json))
    (h : findMissingField (.obj ufs) ["Email", "FirstName", "LastName"] = .ok none) :
    ∃ v, lookupField ufs "Email" = some v ∧ v.truthy = true := by
  cases hE : lookupField ufs "Email" with
  | none => simp [findMissingField, Json.getm, hE, pyOptTruthy] at h
  | some v =>
      refine ⟨v, rfl, ?_⟩
      by_cases hv : v.truthy = true
      · exact hv
      · simp [findMissingField, Json.getm, hE, pyOptTruthy, hv] at h

/-- On a POST request with a parsed body, the handler is `withData`. -/
lemma HubspotAdd_post (req : HttpRequest) (w : World) (data : Json)
    (hm : req.method = "POST") (hb : req.body = .json data) :
    HubspotAdd req w = withData data w := by
  simp [HubspotAdd, hm, hb]

end HandlerLemmas

/-- Claim C5: for a POST whose parsed body contains `UserDetails` as an
object, the required fields are tested for truthiness in the fixed order
`Email`, `FirstName`, `LastName`; the first falsy one wins and produces
the 400 response naming exactly that field, with no outbound call. -/
theorem C5_validation_order (req : HttpRequest) (w : World) (data : Json)
    (ufs : List (String × Json))
    (hm : req.method = "POST")
    (hb : req.body = .json data)
    (hud : Json.containsKey data "UserDetails" = .ok true)
    (hsub : Json.subscript data "UserDetails" = .ok (.obj ufs)) :
    (pyOptTruthy (lookupField ufs "Email") = false →
       HubspotAdd req w =
         ⟨jsonResp 400 (msgBody "Required field missing: Email"), [], []⟩) ∧
    (pyOptTruthy (lookupField ufs "Email") = true →
     pyOptTruthy (lookupField ufs "FirstName") = false →
       HubspotAdd req w =
         ⟨jsonResp 400 (msgBody "Required field missing: FirstName"), [], []⟩) ∧
    (pyOptTruthy (lookupField ufs "Email") = true →
     pyOptTruthy (lookupField ufs "FirstName") = true →
     pyOptTruthy (lookupField ufs "LastName") = false →
       HubspotAdd req w =
         ⟨jsonResp 400 (msgBody "Required field missing: LastName"), [], []⟩) := by
  rw [HubspotAdd_post req w data hm hb]
  unfold withData
  rw [hud, hsub]
  refine ⟨fun hE => ?_, fun hE hF => ?_, fun hE hF hL => ?_⟩
  · simp [findMissingField, Json.getm, hE]
  · simp [findMissingField, Json.getm, hE, hF]
  · simp [findMissingField, Json.getm, hE, hF, hL]

/-- A POST request with valid `Email`/`LastName` but no `FirstName`. -/
def reqNoFirst : HttpRequest :=
  ⟨"POST", .json (.obj [("UserDetails",
      .obj [("Email", .str "a@b.c"), ("LastName", .str "Doe")])])⟩

/-- A fully successful external world: token present, create succeeds with
id 42, the first association attempt finds company 99, the company PATCH
returns 200. -/
def defaultWorld : World :=
  { token := some "tok",
    now := "2026-01-01T00:00:00",
    countryName := fun _ => none,
    createResp := .ok ⟨201, "created", some (.obj [("id", .str "42")])⟩,
    updateResp := .ok ⟨200, "updated", some (.obj [("id", .str "42")])⟩,
    assocResp := fun _ => .http ⟨200, "",
      some (.obj [("results", .arr [.obj [("toObjectId", .num 99)]])])⟩,
    companyResp := .ok ⟨200, "ok", none⟩ }

/-- Witness for C5: the missing-`FirstName` request yields exactly the
claimed 400 body. -/
theorem C5_validation_order_witness :
    HubspotAdd reqNoFirst defaultWorld =
      ⟨jsonResp 400 (msgBody "Required field missing: FirstName"), [], []⟩ :=
  (C5_validation_order reqNoFirst defaultWorld
      (.obj [("UserDetails", .obj [("Email", .str "a@b.c"), ("LastName", .str "Doe")])])
      [("Email", .str "a@b.c"), ("LastName", .str "Doe")]
      rfl rfl rfl rfl).2.1 rfl rfl

/-- Claim C9: a parsed body whose `UserDetails` is a string, number, list or
null does not produce a 400 validation error: the `.get` attribute access
raises and the top-level handler answers 500 "Internal server error". -/
theorem C9_nonobject_userdetails (req : HttpRequest) (w : World) (data user : Json)
    (hm : req.method = "POST")
    (hb : req.body = .json data)
    (hud : Json.containsKey data "UserDetails" = .ok true)
    (hsub : Json.subscript data "UserDetails" = .ok user)
    (hshape : (∃ s, user = .str s) ∨ (∃ n, user = .num n) ∨
              (∃ xs, user = .arr xs) ∨ user = .null) :
    (HubspotAdd req w).resp.status = 500 ∧
    respMessage (HubspotAdd req w).resp = some "Internal server error" ∧
    (HubspotAdd req w).resp.status ≠ 400 := by
  rw [HubspotAdd_post req w data hm hb]
  unfold withData
  rw [hud, hsub]
  rcases hshape with ⟨s, rfl⟩ | ⟨n, rfl⟩ | ⟨xs, rfl⟩ | rfl <;>
    simp [findMissingField, Json.getm, internalErrorResult, jsonResp,
      respMessage, lookupField]

/-- A POST request whose `UserDetails` is the string `"nope"`. -/
def reqStrUser : HttpRequest :=
  ⟨"POST", .json (.obj [("UserDetails", .str "nope")])⟩

/-- Witness for C9 at a concrete string-valued `UserDetails`. -/
theorem C9_nonobject_userdetails_witness :
    (HubspotAdd reqStrUser defaultWorld).resp.status = 500 ∧
    respMessage (HubspotAdd reqStrUser defaultWorld).resp =
      some "Internal server error" ∧
    (HubspotAdd reqStrUser defaultWorld).resp.status ≠ 400 :=
  C9_nonobject_userdetails reqStrUser defaultWorld
    (.obj [("UserDetails", .str "nope")]) (.str "nope")
    rfl rfl rfl rfl (Or.inl ⟨"nope", rfl⟩)

/-- `defaultWorld` with the token removed from configuration. -/
def worldNoToken : World := { defaultWorld with token := none }

/-- A POST that passes input validation but whose `OfferTitle` is a JSON
array (an unhashable `dict.get` key in the solution lookup). -/
def reqBadOffer : HttpRequest :=
  ⟨"POST", .json (.obj [("UserDetails",
      .obj [("Email", .str "a@b.c"), ("FirstName", .str "Jo"),
            ("LastName", .str "Doe")]),
    ("OfferTitle", .arr [])])⟩

/-- Claim C7, counterexample: a valid POST that passes input validation,
with the token absent, can still answer the generic 500 "Internal server
error" instead of the missing-token 500 — the payload build
(`solution_map.get` with an unhashable list key, line 204) raises before
the token check at line 258.  No outbound call is made either way. -/
theorem C7_counterexample :
    respMessage (HubspotAdd reqBadOffer worldNoToken).resp =
      some "Internal server error" ∧
    respMessage (HubspotAdd reqBadOffer worldNoToken).resp ≠
      some "Server misconfiguration: missing token" ∧
    (HubspotAdd reqBadOffer worldNoToken).calls = [] := by
  refine ⟨rfl, ?_, rfl⟩
  have he : respMessage (HubspotAdd reqBadOffer worldNoToken).resp =
      some "Internal server error" := rfl
  rw [he]
  simp

/-- Claim C7 (amended): for a valid POST that passes input validation and
whose payload build raises nothing (in particular `OfferTitle` is not an
array or object), an absent token yields the missing-token 500 and no
outbound CRM call at all. -/
theorem C7_amended_missing_token (req : HttpRequest) (w : World) (data user : Json)
    (hm : req.method = "POST")
    (hb : req.body = .json data)
    (hud : Json.containsKey data "UserDetails" = .ok true)
    (hsub : Json.subscript data "UserDetails" = .ok user)
    (hval : findMissingField user ["Email", "FirstName", "LastName"] = .ok none)
    (hbd : ∃ hd, build_hubspot_data data user w.countryName = .ok hd)
    (htok : w.token = none) :
    HubspotAdd req w =
      ⟨jsonResp 500 (msgBody "Server misconfiguration: missing token"), [], []⟩ := by
  obtain ⟨hd, hbd⟩ := hbd
  rw [HubspotAdd_post req w data hm hb]
  unfold withData
  rw [hud, hsub]
  dsimp only
  rw [hval]
  unfold afterValidation
  rw [hbd]
  simp [htok, pyStrTruthy]

/-- A valid POST whose payload build succeeds (no `OfferTitle`). -/
def reqPlain : HttpRequest :=
  ⟨"POST", .json (.obj [("UserDetails",
      .obj [("Email", .str "a@b.c"), ("FirstName", .str "Jo"),
            ("LastName", .str "Doe"), ("Country", .str "US")])])⟩

/-- Witness for the amended C7 theorem. -/
theorem C7_amended_missing_token_witness :
    HubspotAdd reqPlain worldNoToken =
      ⟨jsonResp 500 (msgBody "Server misconfiguration: missing token"), [], []⟩ :=
  C7_amended_missing_token reqPlain worldNoToken
    (.obj [("UserDetails", .obj [("Email", .str "a@b.c"), ("FirstName", .str "Jo"),
        ("LastName", .str "Doe"), ("Country", .str "US")])])
    (.obj [("Email", .str "a@b.c"), ("FirstName", .str "Jo"),
        ("LastName", .str "Doe"), ("Country", .str "US")])
    rfl rfl rfl rfl rfl ⟨_, rfl⟩ rfl

/-- Claim C10: when the create call returns a status other than 400 or 409
(CRM 5xx included) and the contact id cannot be extracted from its body,
the unguarded `r.json()["id"]` raises: the handler answers 500 "Internal
server error" after the create call only — no polling, no company
update. -/
theorem C10_unguarded_id_extraction (req : HttpRequest) (w : World)
    (data user : Json)
    (hm : req.method = "POST")
    (hb : req.body = .json data)
    (hud : Json.containsKey data "UserDetails" = .ok true)
    (hsub : Json.subscript data "UserDetails" = .ok user)
    (hval : findMissingField user ["Email", "FirstName", "LastName"] = .ok none)
    (hbd : ∃ hd, build_hubspot_data data user w.countryName = .ok hd)
    (htok : pyStrTruthy w.token = true)
    (r : CrmResp)
    (hcr : w.createResp = .ok r)
    (h400 : r.status ≠ 400)
    (h409 : r.status ≠ 409)
    (hex : ∃ e, extract_contact_id r = .error e) :
    (HubspotAdd req w).resp.status = 500 ∧
    respMessage (HubspotAdd req w).resp = some "Internal server error" ∧
    (∃ p, (HubspotAdd req w).calls = [CrmCall.createContact p]) ∧
    (HubspotAdd req w).sleeps = [] := by
  obtain ⟨hd, hbd⟩ := hbd
  obtain ⟨e, hex⟩ := hex
  rw [HubspotAdd_post req w data hm hb]
  unfold withData
  rw [hud, hsub]
  dsimp only
  rw [hval]
  unfold afterValidation
  rw [hbd]
  simp only [htok]
  rw [hcr]
  dsimp only
  simp only [h400, h409, if_false, if_neg, Bool.true_eq_false]
  unfold afterContact
  rw [hex]
  refine ⟨?_, ?_, ⟨hd, ?_⟩, ?_⟩ <;>
    simp [internalErrorResult, jsonResp, respMessage, lookupField]

/-- A world where the create call answers 503 with a non-JSON body. -/
def worldCreate503 : World :=
  { defaultWorld with createResp := .ok ⟨503, "Service Unavailable", none⟩ }

/-- Witness for C10 with a CRM 503 whose body has no id. -/
theorem C10_unguarded_id_extraction_witness :
    (HubspotAdd reqPlain worldCreate503).resp.status = 500 ∧
    respMessage (HubspotAdd reqPlain worldCreate503).resp =
      some "Internal server error" ∧
    (∃ p, (HubspotAdd reqPlain worldCreate503).calls = [CrmCall.createContact p]) ∧
    (HubspotAdd reqPlain worldCreate503).sleeps = [] :=
  C10_unguarded_id_extraction reqPlain worldCreate503
    (.obj [("UserDetails", .obj [("Email", .str "a@b.c"), ("FirstName", .str "Jo"),
        ("LastName", .str "Doe"), ("Country", .str "US")])])
    (.obj [("Email", .str "a@b.c"), ("FirstName", .str "Jo"),
        ("LastName", .str "Doe"), ("Country", .str "US")])
    rfl rfl rfl rfl rfl ⟨_, rfl⟩ rfl
    ⟨503, "Service Unavailable", none⟩ rfl
    (by decide) (by decide) ⟨_, rfl⟩

/-- The single-attempt poll performs exactly one association call and no
sleep, whatever the oracle answers. -/
lemma wait_one_attempt (oracle : Nat → PollResp) (d : ℚ) :
    (wait_for_company_association oracle 1 d).2 = [.assoc] := by
  unfold wait_for_company_association
  cases h : attemptOutcome (oracle 0) <;> simp [pollLoop, h]

/-- Whatever the company PATCH answers, `update_company_properties` was
attempting exactly one company-update call. -/
lemma update_company_snd (a b : Json) (w : World) :
    ∃ p, (update_company_properties a b w).2 = CrmCall.updateCompany a p := by
  unfold update_company_properties
  cases w.companyResp <;> exact ⟨_, rfl⟩

/-- Claim C4: on a create 409 the handler issues the update-by-email call
with the same record; a transport failure of that update yields the
dedicated 500 body; an update 400 propagates the raw text; any other
update outcome continues as "contact existed, updated", so the subsequent
polling is a single immediate check (one association call, no sleep). -/
theorem C4_conflict_reconciliation (req : HttpRequest) (w : World)
    (data user : Json)
    (hm : req.method = "POST")
    (hb : req.body = .json data)
    (hud : Json.containsKey data "UserDetails" = .ok true)
    (hsub : Json.subscript data "UserDetails" = .ok user)
    (hval : findMissingField user ["Email", "FirstName", "LastName"] = .ok none)
    (hbd : ∃ hd, build_hubspot_data data user w.countryName = .ok hd)
    (htok : pyStrTruthy w.token = true)
    (r : CrmResp)
    (hcr : w.createResp = .ok r)
    (h409 : r.status = 409) :
    (∃ p e, (HubspotAdd req w).calls.take 2 =
        [CrmCall.createContact p, CrmCall.updateContact e p]) ∧
    (∀ msg, w.updateResp = .error msg →
      (HubspotAdd req w).resp =
        jsonResp 500 (.obj [("message", .str "PATCH update failed"),
                            ("error", .str msg)])) ∧
    (∀ r2, w.updateResp = .ok r2 → r2.status = 400 →
      (HubspotAdd req w).resp = jsonResp 400 (msgBody r2.text)) ∧
    (∀ r2 cid, w.updateResp = .ok r2 → r2.status ≠ 400 →
      extract_contact_id r2 = .ok cid →
      ((HubspotAdd req w).sleeps = [] ∧
       ((HubspotAdd req w).calls.countP fun c =>
          match c with
          | CrmCall.getAssociations _ => true
          | _ => false) = 1)) := by
  obtain ⟨hd, hbd⟩ := hbd
  obtain ⟨ufs, rfl⟩ := findMissingField_ok_obj user "Email" _ _ hval
  obtain ⟨ev, hev, _⟩ := email_present_of_validated ufs hval
  have hmain : HubspotAdd req w = conflictPath (.obj ufs) hd w
      [CrmCall.createContact hd] := by
    rw [HubspotAdd_post req w data hm hb]
    unfold withData
    rw [hud, hsub]
    dsimp only
    rw [hval]
    unfold afterValidation
    rw [hbd]
    simp only [htok]
    rw [hcr]
    dsimp only
    simp [h409]
  rw [hmain]
  unfold conflictPath
  simp only [Json.subscript, hev]
  refine ⟨?_, ?_, ?_, ?_⟩
  · refine ⟨hd, ev, ?_⟩
    cases hu : w.updateResp with
    | error msg => simp
    | ok r2 =>
        by_cases h2 : r2.status = 400
        · simp [h2]
        · simp only [h2, if_false]
          unfold afterContact
          cases hx : extract_contact_id r2 with
          | error e => simp [internalErrorResult]
          | ok cid =>
              dsimp only
              by_cases hp :
                  (wait_for_company_association w.assocResp 1 0).1.truthy = true
              · simp [hp, Json.getDef, internalErrorResult]
              · simp [hp]
  · intro msg hu
    rw [hu]
  · intro r2 hu h2
    rw [hu]
    simp [h2]
  · intro r2 cid hu h2 hx
    rw [hu]
    simp only [h2, if_false]
    unfold afterContact
    rw [hx]
    dsimp only
    have htr := wait_one_attempt w.assocResp 0
    by_cases hp : (wait_for_company_association w.assocResp 1 0).1.truthy = true
    · obtain ⟨p, hup⟩ :=
        update_company_snd (wait_for_company_association w.assocResp 1 0).1
          ((lookupField ufs "Country").getD (Json.str "")) w
      simp [hp, htr, Json.getDef, hup, List.countP, List.countP.go]
    · simp [hp, htr, List.countP, List.countP.go]

/-- `defaultWorld` whose create call answers 409 (contact exists). -/
def worldConflict : World :=
  { defaultWorld with
    createResp := .ok ⟨409, "conflict", some (.obj [("id", .str "7")])⟩ }

/-- Witness for C4 at a concrete conflicting request. -/
theorem C4_conflict_reconciliation_witness :
    (∃ p e, (HubspotAdd reqPlain worldConflict).calls.take 2 =
        [CrmCall.createContact p, CrmCall.updateContact e p]) ∧
    (∀ msg, worldConflict.updateResp = .error msg →
      (HubspotAdd reqPlain worldConflict).resp =
        jsonResp 500 (.obj [("message", .str "PATCH update failed"),
                            ("error", .str msg)])) ∧
    (∀ r2, worldConflict.updateResp = .ok r2 → r2.status = 400 →
      (HubspotAdd reqPlain worldConflict).resp = jsonResp 400 (msgBody r2.text)) ∧
    (∀ r2 cid, worldConflict.updateResp = .ok r2 → r2.status ≠ 400 →
      extract_contact_id r2 = .ok cid →
      ((HubspotAdd reqPlain worldConflict).sleeps = [] ∧
       ((HubspotAdd reqPlain worldConflict).calls.countP fun c =>
          match c with
          | CrmCall.getAssociations _ => true
          | _ => false) = 1)) :=
  C4_conflict_reconciliation reqPlain worldConflict
    (.obj [("UserDetails", .obj [("Email", .str "a@b.c"), ("FirstName", .str "Jo"),
        ("LastName", .str "Doe"), ("Country", .str "US")])])
    (.obj [("Email", .str "a@b.c"), ("FirstName", .str "Jo"),
        ("LastName", .str "Doe"), ("Country", .str "US")])
    rfl rfl rfl rfl rfl ⟨_, rfl⟩ rfl
    ⟨409, "conflict", some (.obj [("id", .str "7")])⟩ rfl rfl

/-- `defaultWorld` whose company PATCH fails with a 400. -/
def worldCompanyFail : World :=
  { defaultWorld with companyResp := .ok ⟨400, "bad request", none⟩ }

/-- Claim C1, counterexample: with a resolved company id and a failing
company PATCH, `update_company_properties` returns `False`, yet the whole
handler result — response included — is identical to the run where the
PATCH succeeds: the 200 body carries `company_updated = true` either way
(line 348 reports `company_id is not None`, not the update outcome), so
the failure is not observable through `company_updated`. -/
theorem C1_counterexample :
    (update_company_properties (.num 99) (.str "US") worldCompanyFail).1 = false ∧
    (update_company_properties (.num 99) (.str "US") defaultWorld).1 = true ∧
    HubspotAdd reqPlain worldCompanyFail = HubspotAdd reqPlain defaultWorld ∧
    (HubspotAdd reqPlain worldCompanyFail).resp.status = 200 ∧
    respField (HubspotAdd reqPlain worldCompanyFail).resp "company_updated" =
      some (.bool true) :=
  ⟨rfl, rfl, rfl, rfl, rfl⟩

/-- A truthy Python value is not `None`. -/
lemma jsonIsNotNone_of_truthy (j : Json) (h : j.truthy = true) :
    jsonIsNotNone j = true := by
  cases j <;> simp_all [Json.truthy, jsonIsNotNone]

/-- Created route to step 10: when the contact id extracts and the created
path poll returns a truthy company id, `afterContact true` answers the
fixed 200 body with `company_updated = true`, for every company-PATCH
outcome. -/
lemma afterContact_created_resolved (r : CrmResp) (ufs : List (String × Json))
    (w : World) (calls : List CrmCall) (cid : Json)
    (hex : extract_contact_id r = .ok cid)
    (hpoll : (wait_for_company_association w.assocResp 5 2).1.truthy = true) :
    (afterContact true r (.obj ufs) w calls).resp =
      jsonResp 200 (.obj [("message", .str "Lead processed successfully"),
                          ("timestamp", .str w.now),
                          ("company_updated", .bool true)]) := by
  unfold afterContact
  rw [hex]
  dsimp only
  simp only [reduceIte]
  rw [if_pos hpoll]
  simp [Json.getDef, jsonIsNotNone_of_truthy _ hpoll]

/-- Updated route to step 10: the same with the single-immediate-check
poll of the `contact_created = False` path. -/
lemma afterContact_updated_resolved (r : CrmResp) (ufs : List (String × Json))
    (w : World) (calls : List CrmCall) (cid : Json)
    (hex : extract_contact_id r = .ok cid)
    (hpoll : (wait_for_company_association w.assocResp 1 0).1.truthy = true) :
    (afterContact false r (.obj ufs) w calls).resp =
      jsonResp 200 (.obj [("message", .str "Lead processed successfully"),
                          ("timestamp", .str w.now),
                          ("company_updated", .bool true)]) := by
  unfold afterContact
  rw [hex]
  dsimp only
  simp only [Bool.false_eq_true, if_false]
  rw [if_pos hpoll]
  simp [Json.getDef, jsonIsNotNone_of_truthy _ hpoll]

/-- Claim C1 (amended): for every request that reaches the company-update
step with a resolved (truthy) company id — through the newly-created route
or through the 409 update-reconciliation route — the outcome of the
company PATCH does not change the response at all: the status is 200 and
`company_updated` is `true`.  The flag reports only `company_id is not
None` (line 348), so a company-update failure is not observable in the
response. -/
theorem C1_company_enrichment_best_effort (req : HttpRequest) (w : World)
    (data user : Json)
    (hm : req.method = "POST")
    (hb : req.body = .json data)
    (hud : Json.containsKey data "UserDetails" = .ok true)
    (hsub : Json.subscript data "UserDetails" = .ok user)
    (hval : findMissingField user ["Email", "FirstName", "LastName"] = .ok none)
    (hbd : ∃ hd, build_hubspot_data data user w.countryName = .ok hd)
    (htok : pyStrTruthy w.token = true)
    (r : CrmResp)
    (hcr : w.createResp = .ok r)
    (hroute :
      (r.status ≠ 400 ∧ r.status ≠ 409 ∧
        (∃ cid, extract_contact_id r = .ok cid) ∧
        (wait_for_company_association w.assocResp 5 2).1.truthy = true) ∨
      (r.status = 409 ∧
        ∃ r2, w.updateResp = .ok r2 ∧ r2.status ≠ 400 ∧
          (∃ cid, extract_contact_id r2 = .ok cid) ∧
          (wait_for_company_association w.assocResp 1 0).1.truthy = true)) :
    (HubspotAdd req w).resp.status = 200 ∧
    respField (HubspotAdd req w).resp "company_updated" = some (.bool true) ∧
    ∀ compResp, (HubspotAdd req { w with companyResp := compResp }).resp =
      (HubspotAdd req w).resp := by
  obtain ⟨hd, hbd⟩ := hbd
  obtain ⟨ufs, rfl⟩ := findMissingField_ok_obj user "Email" _ _ hval
  obtain ⟨ev, hev, _⟩ := email_present_of_validated ufs hval
  have key : ∀ c, (HubspotAdd req { w with companyResp := c }).resp =
      jsonResp 200 (.obj [("message", .str "Lead processed successfully"),
                          ("timestamp", .str w.now),
                          ("company_updated", .bool true)]) := by
    intro c
    rw [HubspotAdd_post req { w with companyResp := c } data hm hb]
    unfold withData
    rw [hud, hsub]
    dsimp only
    rw [hval]
    unfold afterValidation
    dsimp only
    rw [hbd]
    simp only [htok]
    rw [hcr]
    dsimp only
    rcases hroute with ⟨h400, h409, ⟨cid, hex⟩, hpoll⟩ |
      ⟨h409, r2, hupd, h2, ⟨cid, hex⟩, hpoll⟩
    · rw [if_neg h400, if_neg h409]
      exact afterContact_created_resolved r ufs _ _ cid hex hpoll
    · have h400 : ¬ (r.status = 400) := by rw [h409]; decide
      rw [if_neg h400, if_pos h409]
      unfold conflictPath
      simp only [Json.subscript, hev]
      rw [hupd]
      dsimp only
      rw [if_neg h2]
      exact afterContact_updated_resolved r2 ufs _ _ cid hex hpoll
  have h0 : (HubspotAdd req w).resp =
      jsonResp 200 (.obj [("message", .str "Lead processed successfully"),
                          ("timestamp", .str w.now),
                          ("company_updated", .bool true)]) := key w.companyResp
  refine ⟨?_, ?_, fun c => ?_⟩
  · rw [h0]
    rfl
  · rw [h0]
    simp [respField, jsonResp, lookupField]
  · rw [key c, h0]

/-- Witness for the amended C1 theorem at the concrete world whose company
PATCH fails, through the newly-created route. -/
theorem C1_company_enrichment_best_effort_witness :
    (HubspotAdd reqPlain worldCompanyFail).resp.status = 200 ∧
    respField (HubspotAdd reqPlain worldCompanyFail).resp "company_updated" =
      some (.bool true) ∧
    ∀ compResp,
      (HubspotAdd reqPlain { worldCompanyFail with companyResp := compResp }).resp =
        (HubspotAdd reqPlain worldCompanyFail).resp :=
  C1_company_enrichment_best_effort reqPlain worldCompanyFail
    (.obj [("UserDetails", .obj [("Email", .str "a@b.c"), ("FirstName", .str "Jo"),
        ("LastName", .str "Doe"), ("Country", .str "US")])])
    (.obj [("Email", .str "a@b.c"), ("FirstName", .str "Jo"),
        ("LastName", .str "Doe"), ("Country", .str "US")])
    rfl rfl rfl rfl rfl ⟨_, rfl⟩ rfl
    ⟨201, "created", some (.obj [("id", .str "42")])⟩ rfl
    (Or.inl ⟨by decide, by decide, ⟨.str "42", rfl⟩, rfl⟩)

section C6Proofs

/-- The response invariant: an allowed status code and the CORS header. -/
def resultOk (res : HandlerResult) : Prop :=
  (res.resp.status = 200 ∨ res.resp.status = 400 ∨ res.resp.status = 405 ∨
    res.resp.status = 500) ∧
  ("Access-Control-Allow-Origin", "*") ∈ res.resp.headers

/-- The top-level catch response satisfies the invariant. -/
lemma resultOk_internal (e : String) (calls : List CrmCall) (sleeps : List ℚ) :
    resultOk (internalErrorResult e calls sleeps) := by
  exact ⟨Or.inr (Or.inr (Or.inr rfl)), by simp [internalErrorResult, jsonResp, corsHeaders]⟩

/-- Any handler result built from `jsonResp` with an allowed status
satisfies the invariant. -/
lemma resultOk_jsonResp (s : Nat) (b : Json) (calls : List CrmCall)
    (sleeps : List ℚ) (hs : s = 200 ∨ s = 400 ∨ s = 405 ∨ s = 500) :
    resultOk ⟨jsonResp s b, calls, sleeps⟩ := by
  exact ⟨hs, by simp [jsonResp, corsHeaders]⟩

/-- Every `afterContact` outcome satisfies the invariant. -/
lemma afterContact_resultOk (contact_created : Bool) (r : CrmResp) (user : Json)
    (w : World) (calls : List CrmCall) :
    resultOk (afterContact contact_created r user w calls) := by
  unfold afterContact
  dsimp only
  repeat' (first | split | dsimp only)
  all_goals
    first
    | exact resultOk_internal _ _ _
    | exact resultOk_jsonResp _ _ _ _ (Or.inl rfl)

/-- Every conflict-path outcome satisfies the invariant. -/
lemma conflictPath_resultOk (user hubspot_data : Json) (w : World)
    (calls : List CrmCall) :
    resultOk (conflictPath user hubspot_data w calls) := by
  unfold conflictPath
  split
  · exact resultOk_internal _ _ _
  · dsimp only
    split
    · exact resultOk_jsonResp _ _ _ _ (Or.inr (Or.inr (Or.inr rfl)))
    · split
      · exact resultOk_jsonResp _ _ _ _ (Or.inr (Or.inl rfl))
      · exact afterContact_resultOk _ _ _ _ _

/-- Every post-validation outcome satisfies the invariant. -/
lemma afterValidation_resultOk (data user : Json) (w : World) :
    resultOk (afterValidation data user w) := by
  unfold afterValidation
  split
  · exact resultOk_internal _ _ _
  · dsimp only
    split
    · exact resultOk_jsonResp _ _ _ _ (Or.inr (Or.inr (Or.inr rfl)))
    · split
      · exact resultOk_internal _ _ _
      · split
        · exact resultOk_jsonResp _ _ _ _ (Or.inr (Or.inl rfl))
        · split
          · exact conflictPath_resultOk _ _ _ _
          · exact afterContact_resultOk _ _ _ _ _

/-- Every parsed-body outcome satisfies the invariant. -/
lemma withData_resultOk (data : Json) (w : World) : resultOk (withData data w) := by
  unfold withData
  split
  · exact resultOk_internal _ _ _
  · exact resultOk_jsonResp _ _ _ _ (Or.inr (Or.inl rfl))
  · split
    · exact resultOk_internal _ _ _
    · split
      · exact resultOk_internal _ _ _
      · exact resultOk_jsonResp _ _ _ _ (Or.inr (Or.inl rfl))
      · exact afterValidation_resultOk _ _ _

/-- Claim C6: every response of the handler — over all requests and all
external worlds — carries the CORS header `Access-Control-Allow-Origin: *`
and a status code among 200, 400, 405, 500. -/
theorem C6_response_invariant (req : HttpRequest) (w : World) :
    ((HubspotAdd req w).resp.status = 200 ∨ (HubspotAdd req w).resp.status = 400 ∨
     (HubspotAdd req w).resp.status = 405 ∨ (HubspotAdd req w).resp.status = 500) ∧
    ("Access-Control-Allow-Origin", "*") ∈ (HubspotAdd req w).resp.headers := by
  have hall : resultOk (HubspotAdd req w) := by
    unfold HubspotAdd
    split
    · exact ⟨Or.inl rfl, by simp [optionsResponse]⟩
    · split
      · exact resultOk_jsonResp _ _ _ _ (Or.inr (Or.inr (Or.inl rfl)))
      · split
        · exact resultOk_internal _ _ _
        · exact resultOk_jsonResp _ _ _ _ (Or.inr (Or.inl rfl))
        · exact withData_resultOk _ _
  exact hall

end C6Proofs

section C8Proofs

/-- A successful lookup makes the key test of `containsKey` true. -/
lemma lookupField_any (fs : List (String × Json)) (k : String) (v : Json)
    (h : lookupField fs k = some v) : (fs.any fun p => decide (p.1 = k)) = true := by
  induction fs with
  | nil => simp [lookupField] at h
  | cons p rest ih =>
      by_cases hp : p.1 = k
      · simp [hp]
      · obtain ⟨k0, v0⟩ := p
        simp only [lookupField] at h
        rw [if_neg (by simpa using hp)] at h
        simp [hp, ih h]

/-- Two user objects with pointwise equally-truthy lookups drive the
required-field loop identically. -/
lemma findMissingField_congr (u1 u2 : List (String × Json))
    (htr : ∀ k, pyOptTruthy (lookupField u1 k) = pyOptTruthy (lookupField u2 k)) :
    ∀ fields, findMissingField (.obj u1) fields = findMissingField (.obj u2) fields := by
  intro fields
  induction fields with
  | nil => rfl
  | cons f rest ih =>
      simp only [findMissingField, Json.getm, htr f]
      cases pyOptTruthy (lookupField u2 f) <;> simp [ih]

/-- `Except.ok` is the unit of the `Except` bind. -/
lemma ok_bind {ε α β : Type} (a : α) (g : α → Except ε β) :
    ((Except.ok a : Except ε α) >>= g) = g a := rfl

/-- Two data/user pairs whose relevant lookups agree build the same
`hubspot_data`. -/
lemma build_hubspot_data_congr (D1 D2 u1 u2 : List (String × Json))
    (cn : String → Option String)
    (hOffer : lookupField D1 "OfferTitle" = lookupField D2 "OfferTitle")
    (hDesc : lookupField D1 "Description" = lookupField D2 "Description")
    (hgd : ∀ k, (lookupField u1 k).getD (.str "") = (lookupField u2 k).getD (.str "")) :
    build_hubspot_data (.obj D1) (.obj u1) cn =
      build_hubspot_data (.obj D2) (.obj u2) cn := by
  unfold build_hubspot_data
  simp only [Json.getDef, ok_bind, hOffer, hDesc, hgd "Country", hgd "Email",
    hgd "FirstName", hgd "LastName", hgd "Phone", hgd "Company", hgd "Title"]

/-- `afterContact` only reads the user object through
`user.get("Country", "")`. -/
lemma afterContact_congr (c : Bool) (r : CrmResp) (u1 u2 : List (String × Json))
    (w : World) (calls : List CrmCall)
    (hgdC : (lookupField u1 "Country").getD (.str "") =
      (lookupField u2 "Country").getD (.str "")) :
    afterContact c r (.obj u1) w calls = afterContact c r (.obj u2) w calls := by
  unfold afterContact
  cases extract_contact_id r with
  | error e => rfl
  | ok cid =>
      dsimp only
      by_cases hp : (if c = true then wait_for_company_association w.assocResp 5 2
          else wait_for_company_association w.assocResp 1 0).1.truthy = true
      · rw [if_pos hp, if_pos hp]
        simp only [Json.getDef, hgdC]
      · rw [if_neg hp, if_neg hp]

/-- `conflictPath` only reads the user object through `user["Email"]` and
the later `afterContact`. -/
lemma conflictPath_congr (u1 u2 : List (String × Json)) (hd : Json) (w : World)
    (calls : List CrmCall)
    (huE : lookupField u1 "Email" = lookupField u2 "Email")
    (hgdC : (lookupField u1 "Country").getD (.str "") =
      (lookupField u2 "Country").getD (.str "")) :
    conflictPath (.obj u1) hd w calls = conflictPath (.obj u2) hd w calls := by
  unfold conflictPath
  simp only [Json.subscript, huE]
  cases lookupField u2 "Email" with
  | none => rfl
  | some email =>
      dsimp only
      cases w.updateResp with
      | error msg => rfl
      | ok r2 =>
          dsimp only
          by_cases h2 : r2.status = 400
          · simp [h2]
          · rw [if_neg h2, if_neg h2]
            exact afterContact_congr false r2 u1 u2 w _ hgdC

/-- Claim C8: two POST bodies that differ only in one `UserDetails` field
being the empty string versus absent produce identical observable handler
behaviour — same response, same call trace, same sleeps. -/
theorem C8_empty_vs_absent_field (m : String) (w : World)
    (D1 D2 u1 u2 : List (String × Json)) (f : String)
    (hU1 : lookupField D1 "UserDetails" = some (.obj u1))
    (hU2 : lookupField D2 "UserDetails" = some (.obj u2))
    (hD : ∀ k, k ≠ "UserDetails" → lookupField D1 k = lookupField D2 k)
    (hf1 : lookupField u1 f = some (.str ""))
    (hf2 : lookupField u2 f = none)
    (hu : ∀ k, k ≠ f → lookupField u1 k = lookupField u2 k) :
    HubspotAdd ⟨m, .json (.obj D1)⟩ w = HubspotAdd ⟨m, .json (.obj D2)⟩ w := by
  have htr : ∀ k, pyOptTruthy (lookupField u1 k) = pyOptTruthy (lookupField u2 k) := by
    intro k
    by_cases hk : k = f
    · subst hk
      rw [hf1, hf2]
      simp [pyOptTruthy, Json.truthy]
    · rw [hu k hk]
  have hgd : ∀ k, (lookupField u1 k).getD (.str "") =
      (lookupField u2 k).getD (.str "") := by
    intro k
    by_cases hk : k = f
    · subst hk
      rw [hf1, hf2]
      rfl
    · rw [hu k hk]
  unfold HubspotAdd
  dsimp only
  by_cases hm1 : m = "OPTIONS"
  · rw [if_pos hm1, if_pos hm1]
  · rw [if_neg hm1, if_neg hm1]
    by_cases hm2 : m ≠ "POST"
    · rw [if_pos hm2, if_pos hm2]
    · rw [if_neg hm2, if_neg hm2]
      unfold withData
      have hc1 : Json.containsKey (.obj D1) "UserDetails" = .ok true := by
        simp only [Json.containsKey, lookupField_any D1 "UserDetails" _ hU1]
      have hc2 : Json.containsKey (.obj D2) "UserDetails" = .ok true := by
        simp only [Json.containsKey, lookupField_any D2 "UserDetails" _ hU2]
      rw [hc1, hc2]
      dsimp only
      have hs1 : Json.subscript (.obj D1) "UserDetails" = .ok (.obj u1) := by
        simp [Json.subscript, hU1]
      have hs2 : Json.subscript (.obj D2) "UserDetails" = .ok (.obj u2) := by
        simp [Json.subscript, hU2]
      rw [hs1, hs2]
      dsimp only
      rw [findMissingField_congr u1 u2 htr ["Email", "FirstName", "LastName"]]
      cases hmf : findMissingField (.obj u2) ["Email", "FirstName", "LastName"] with
      | error e => rfl
      | ok o =>
          cases o with
          | some fld => rfl
          | none =>
              unfold afterValidation
              have huE : lookupField u1 "Email" = lookupField u2 "Email" := by
                obtain ⟨v, hv, hvt⟩ := email_present_of_validated u2 hmf
                have hfE : f ≠ "Email" := by
                  intro hfe
                  subst hfe
                  rw [hf2] at hv
                  exact Option.noConfusion hv
                exact hu "Email" (fun h => hfE h.symm)
              rw [build_hubspot_data_congr D1 D2 u1 u2 w.countryName
                (hD "OfferTitle" (by decide)) (hD "Description" (by decide)) hgd]
              cases build_hubspot_data (.obj D2) (.obj u2) w.countryName with
              | error e => rfl
              | ok hd =>
                  dsimp only
                  by_cases ht : pyStrTruthy w.token = false
                  · rw [if_pos ht, if_pos ht]
                  · rw [if_neg ht, if_neg ht]
                    cases w.createResp with
                    | error e => rfl
                    | ok r =>
                        dsimp only
                        by_cases h1 : r.status = 400
                        · rw [if_pos h1, if_pos h1]
                        · rw [if_neg h1, if_neg h1]
                          by_cases h2 : r.status = 409
                          · rw [if_pos h2, if_pos h2]
                            exact conflictPath_congr u1 u2 hd w _ huE (hgd "Country")
                          · rw [if_neg h2, if_neg h2]
                            exact afterContact_congr true r u1 u2 w _ (hgd "Country")

end C8Proofs

/-- The user object with `Country` as the empty string. -/
def userEmptyCountry : List (String × Json) :=
  [("Email", .str "a@b.c"), ("FirstName", .str "Jo"), ("LastName", .str "Doe"),
   ("Country", .str "")]

/-- The same user object with `Country` absent. -/
def userNoCountry : List (String × Json) :=
  [("Email", .str "a@b.c"), ("FirstName", .str "Jo"), ("LastName", .str "Doe")]

/-- Witness for C8: `"Country": ""` and absent `Country` behave
identically on a concrete request pair. -/
theorem C8_empty_vs_absent_field_witness :
    HubspotAdd ⟨"POST", .json (.obj [("UserDetails", .obj userEmptyCountry)])⟩
        defaultWorld =
      HubspotAdd ⟨"POST", .json (.obj [("UserDetails", .obj userNoCountry)])⟩
        defaultWorld :=
  C8_empty_vs_absent_field "POST" defaultWorld
    [("UserDetails", .obj userEmptyCountry)] [("UserDetails", .obj userNoCountry)]
    userEmptyCountry userNoCountry "Country"
    rfl rfl
    (by
      intro k hk
      simp only [lookupField]
      rw [if_neg (fun h => hk h.symm), if_neg (fun h => hk h.symm)])
    rfl rfl
    (by
      intro k hk
      by_cases h1 : "Email" = k
      · simp [userEmptyCountry, userNoCountry, lookupField, h1]
      · by_cases h2 : "FirstName" = k
        · simp [userEmptyCountry, userNoCountry, lookupField, h1, h2]
        · by_cases h3 : "LastName" = k
          · simp [userEmptyCountry, userNoCountry, lookupField, h1, h2, h3]
          · simp [userEmptyCountry, userNoCountry, lookupField, h1, h2, h3,
              Ne.symm hk])
